import Mathlib

/-!
Shallow embedding of the maze lesson source `06_maze_game_camera.c`:
the circle-vs-rectangle collision test `CheckCollisionCircleRec`, the
main-loop collision resolver, the cubicmap mesh generator
`GenMeshCubicmap`, and the first-person camera position update from
`UpdateCamera`.  Float arithmetic of the source is modelled over the
rationals; C `int` values are modelled as integers with the C truncating
division, and C float-to-int casts as truncation toward zero.
-/

namespace Maze

/-- Color type, RGBA, one byte per channel (source struct `Color`). -/
structure Color where
  r : ℕ
  g : ℕ
  b : ℕ
  a : ℕ
deriving DecidableEq, Repr

/-- Rectangle type with `int` fields, exactly as defined in the source. -/
structure Rectangle where
  x : ℤ
  y : ℤ
  width : ℤ
  height : ℤ
deriving DecidableEq, Repr

/-- Two-component vector (source `Vector2`), floats modelled as rationals. -/
structure Vector2 where
  x : ℚ
  y : ℚ
deriving DecidableEq, Repr

/-- Three-component vector (source `Vector3`), floats modelled as rationals. -/
structure Vector3 where
  x : ℚ
  y : ℚ
  z : ℚ
deriving DecidableEq, Repr

/-- An image reduced to its decoded pixel grid: `GetImageData` in the source
turns the raw image data into a row-major `Color` array of length
`width * height`; both the mesh generator and the collision loop read cells
through that array. -/
structure Image where
  width : ℕ
  height : ℕ
  pixels : List Color
deriving Repr

/-- Row-major pixel read `pixels[i]`; reads past the end give a zero pixel. -/
def pixelAt (im : Image) (i : ℕ) : Color := im.pixels.getD i ⟨0, 0, 0, 0⟩

/-- C cast from float to int: truncation toward zero. -/
def cTrunc (q : ℚ) : ℤ := if q < 0 then ⌈q⌉ else ⌊q⌋

/-- Source `CheckCollisionCircleRec` (lines 1249-1267).  Note that
`recCenterX` and `recCenterY` are computed in `int` arithmetic, so
`rec.width/2` is a truncating integer division; the comparisons happen in
float after promoting the int values. -/
def CheckCollisionCircleRec (center : Vector2) (radius : ℚ) (rec : Rectangle) : Bool :=
  let recCenterX : ℤ := rec.x + Int.tdiv rec.width 2
  let recCenterY : ℤ := rec.y + Int.tdiv rec.height 2
  let dx : ℚ := |center.x - (recCenterX : ℚ)|
  let dy : ℚ := |center.y - (recCenterY : ℚ)|
  if dx > (rec.width : ℚ)/2 + radius then false
  else if dy > (rec.height : ℚ)/2 + radius then false
  else if dx ≤ (rec.width : ℚ)/2 then true
  else if dy ≤ (rec.height : ℚ)/2 then true
  else
    decide ((dx - (rec.width : ℚ)/2) * (dx - (rec.width : ℚ)/2) +
            (dy - (rec.height : ℚ)/2) * (dy - (rec.height : ℚ)/2) ≤ radius * radius)

/-- Player collision radius used by the main loop (`playerRadius = 0.1f`). -/
def playerRadius : ℚ := 1/10

/-- The rectangle the main loop builds for grid cell `(x, y)`:
`(Rectangle){ mapPosition.x + 0.5f + x*1.0f, mapPosition.y + 0.5f + y*1.0f, 1.0f, 1.0f }`.
The struct fields are `int`, so each float component is truncated. -/
def cellRectangle (mapPosition : Vector3) (x y : ℕ) : Rectangle :=
  { x := cTrunc (mapPosition.x + 1/2 + (x : ℚ) * 1)
    y := cTrunc (mapPosition.y + 1/2 + (y : ℚ) * 1)
    width := cTrunc 1
    height := cTrunc 1 }

/-- Collider test of the main loop (line 330): only the red channel is
compared to 255. -/
def colliderCell (c : Color) : Bool := c.r == 255

/-- Body of the collision scan for one cell: the cell is a collider when its
red channel is 255, and the rollback triggers when the player circle also
hits the cell rectangle (main loop, lines 330-337). -/
def collidesCell (im : Image) (mapPosition : Vector3) (playerPos : Vector2) (x y : ℕ) : Bool :=
  colliderCell (pixelAt im (y * im.width + x)) &&
    CheckCollisionCircleRec playerPos playerRadius (cellRectangle mapPosition x y)

/-- Whether the scan of the main loop finds any colliding cell.  Both loops
run `y` and `x` from `0` to `imMap.width - 1` (lines 326-328 of the source
use `imMap.width` as the bound of the `y` loop as well). -/
def anyCollision (im : Image) (mapPosition : Vector3) (playerPos : Vector2) : Bool :=
  (List.range im.width).any fun y =>
    (List.range im.width).any fun x => collidesCell im mapPosition playerPos x y

/-- The collision-resolution step of the main loop: starting from the
tentative camera position produced by `UpdateCamera`, every scanned colliding
cell overwrites the position with the pre-move position `oldCamPos`.
`playerPos` is the horizontal projection of the tentative position and is not
recomputed inside the loop. -/
def resolveCollision (im : Image) (mapPosition : Vector3)
    (oldCamPos newCamPos : Vector3) : Vector3 :=
  let playerPos : Vector2 := ⟨newCamPos.x, newCamPos.z⟩
  (List.range im.width).foldl
    (fun pos y =>
      (List.range im.width).foldl
        (fun pos x => if collidesCell im mapPosition playerPos x y then oldCamPos else pos)
        pos)
    newCamPos

/-! ### Cubicmap mesh generator -/

/-- WALL test of `GenMeshCubicmap`: the pixel is pure white. -/
def colorIsWhite (c : Color) : Bool := c.r == 255 && c.g == 255 && c.b == 255

/-- OPEN test of `GenMeshCubicmap`: the pixel is pure black. -/
def colorIsBlack (c : Color) : Bool := c.r == 0 && c.g == 0 && c.b == 0

/-- The eight kinds of quads a cell can emit.  A WALL cell emits `wallTop`
and `wallBottom` unconditionally and the four side faces conditionally; an
OPEN cell emits `openCeil` (the quad at height `h2` with downward normal
`n4`, source lines 1056-1079) and `openFloor` (the quad at height `0` with
upward normal `n3`, source lines 1081-1104). -/
inductive FaceKind
  | wallTop
  | wallBottom
  | front
  | back
  | right
  | left
  | openCeil
  | openFloor
deriving DecidableEq, Repr

/-- Condition for the front face (`+z` neighbor, source lines 923-926):
`((z < height-1) && black(z+1, x)) || (z == height-1)`. -/
def frontCond (im : Image) (x z : ℕ) : Bool :=
  (decide (z + 1 < im.height) && colorIsBlack (pixelAt im ((z + 1) * im.width + x)))
    || decide (z + 1 = im.height)

/-- Condition for the back face (`-z` neighbor, source lines 955-958):
`((z > 0) && black(z-1, x)) || (z == 0)`. -/
def backCond (im : Image) (x z : ℕ) : Bool :=
  (decide (0 < z) && colorIsBlack (pixelAt im ((z - 1) * im.width + x)))
    || decide (z = 0)

/-- Condition for the right face (`+x` neighbor, source lines 987-990):
`((x < width-1) && black(z, x+1)) || (x == width-1)`. -/
def rightCond (im : Image) (x z : ℕ) : Bool :=
  (decide (x + 1 < im.width) && colorIsBlack (pixelAt im (z * im.width + (x + 1))))
    || decide (x + 1 = im.width)

/-- Condition for the left face (`-x` neighbor, source lines 1019-1022):
`((x > 0) && black(z, x-1)) || (x == 0)`. -/
def leftCond (im : Image) (x z : ℕ) : Bool :=
  (decide (0 < x) && colorIsBlack (pixelAt im (z * im.width + (x - 1))))
    || decide (x = 0)

/-- The sequence of quads cell `(x, z)` emits, in source emission order:
for a pure-white cell top, bottom, then front/back/right/left guarded by the
neighbor conditions; for a pure-black cell the ceiling and floor quads; any
other color emits nothing (source lines 866-1105). -/
def cellFaces (im : Image) (x z : ℕ) : List FaceKind :=
  if colorIsWhite (pixelAt im (z * im.width + x)) then
    [FaceKind.wallTop, FaceKind.wallBottom]
      ++ (if frontCond im x z then [FaceKind.front] else [])
      ++ (if backCond im x z then [FaceKind.back] else [])
      ++ (if rightCond im x z then [FaceKind.right] else [])
      ++ (if leftCond im x z then [FaceKind.left] else [])
  else if colorIsBlack (pixelAt im (z * im.width + x)) then
    [FaceKind.openCeil, FaceKind.openFloor]
  else []

/-- The six vertices (two triangles) each quad contributes, built from the
eight cube corners `v1`-`v8` of cell `(x, z)` with cube size `s`
(`w = h = h2 = cubeSize`, source lines 856-863), in the exact vertex order of
the source. -/
def faceVerts (s : ℚ) (x z : ℕ) : FaceKind → List Vector3 :=
  let v1 : Vector3 := ⟨s * ((x : ℚ) - 1/2), s, s * ((z : ℚ) - 1/2)⟩
  let v2 : Vector3 := ⟨s * ((x : ℚ) - 1/2), s, s * ((z : ℚ) + 1/2)⟩
  let v3 : Vector3 := ⟨s * ((x : ℚ) + 1/2), s, s * ((z : ℚ) + 1/2)⟩
  let v4 : Vector3 := ⟨s * ((x : ℚ) + 1/2), s, s * ((z : ℚ) - 1/2)⟩
  let v5 : Vector3 := ⟨s * ((x : ℚ) + 1/2), 0, s * ((z : ℚ) - 1/2)⟩
  let v6 : Vector3 := ⟨s * ((x : ℚ) - 1/2), 0, s * ((z : ℚ) - 1/2)⟩
  let v7 : Vector3 := ⟨s * ((x : ℚ) - 1/2), 0, s * ((z : ℚ) + 1/2)⟩
  let v8 : Vector3 := ⟨s * ((x : ℚ) + 1/2), 0, s * ((z : ℚ) + 1/2)⟩
  fun k =>
    match k with
    | .wallTop => [v1, v2, v3, v1, v3, v4]
    | .wallBottom => [v6, v8, v7, v6, v5, v8]
    | .front => [v2, v7, v3, v3, v7, v8]
    | .back => [v1, v5, v6, v1, v4, v5]
    | .right => [v3, v8, v4, v4, v8, v5]
    | .left => [v1, v7, v2, v1, v6, v7]
    | .openCeil => [v1, v3, v2, v1, v4, v3]
    | .openFloor => [v6, v7, v8, v6, v8, v5]

/-- The constant normal attached to all six vertices of a quad (the source
normals `n1`-`n6`). -/
def faceNormal : FaceKind → Vector3
  | .wallTop => ⟨0, 1, 0⟩
  | .wallBottom => ⟨0, -1, 0⟩
  | .front => ⟨0, 0, -1⟩
  | .back => ⟨0, 0, 1⟩
  | .right => ⟨1, 0, 0⟩
  | .left => ⟨-1, 0, 0⟩
  | .openCeil => ⟨0, -1, 0⟩
  | .openFloor => ⟨0, 1, 0⟩

/-- All vertices cell `(x, z)` contributes, in emission order. -/
def cellVertices (im : Image) (s : ℚ) (x z : ℕ) : List Vector3 :=
  (cellFaces im x z).flatMap (faceVerts s x z)

/-- The vertex array `GenMeshCubicmap` produces: the scan runs `z` over the
rows and `x` over the columns (source lines 851-853). -/
def GenMeshCubicmapVertices (im : Image) (s : ℚ) : List Vector3 :=
  (List.range im.height).flatMap fun z =>
    (List.range im.width).flatMap fun x => cellVertices im s x z

/-- `mesh.vertexCount` of the generated mesh (`vCounter` of the source). -/
def GenMeshCubicmapVertexCount (im : Image) (s : ℚ) : ℕ :=
  (GenMeshCubicmapVertices im s).length

/-- Total number of quads emitted over the whole grid. -/
def totalFaces (im : Image) : ℕ :=
  ((List.range im.height).flatMap fun z =>
    (List.range im.width).flatMap fun x => cellFaces im x z).length

/-! ### Camera position update -/

/-- C arithmetic on a `bool`: `true` is `1`, `false` is `0`. -/
def boolToRat (b : Bool) : ℚ := if b then 1 else 0

/-- The six movement key states of `UpdateCamera` (the `direction` array). -/
structure CameraMoveKeys where
  front : Bool
  back : Bool
  right : Bool
  left : Bool
  up : Bool
  down : Bool

/-- `PLAYER_MOVEMENT_SENSITIVITY` (source line 1164). -/
def PLAYER_MOVEMENT_SENSITIVITY : ℚ := 20

/-- `CAMERA_FIRST_PERSON_STEP_TRIGONOMETRIC_DIVIDER` (source line 1170). -/
def STEP_TRIGONOMETRIC_DIVIDER : ℚ := 5

/-- `CAMERA_FIRST_PERSON_STEP_DIVIDER` (source line 1171). -/
def STEP_DIVIDER : ℚ := 30

/-- `playerEyesPosition = 0.6f` (source line 1174). -/
def playerEyesPosition : ℚ := 3/5

/-- Whether any movement key is held (`isMoving`, source lines 1219-1221). -/
def isMovingKeys (dir : CameraMoveKeys) : Bool :=
  dir.front || dir.back || dir.right || dir.left || dir.up || dir.down

/-- The tentative position after the three position increments of
`UpdateCamera` (source lines 1205-1217): each component adds the summed key
contributions along the yaw-rotated basis, divided by
`PLAYER_MOVEMENT_SENSITIVITY`.  The y contribution mixes the pitch angle for
front/back and a unit vertical direction for up/down.  `sinq` and `cosq`
stand for the C library `sinf`/`cosf`, left abstract. -/
def updateCameraTentative (sinq cosq : ℚ → ℚ) (angleX angleY : ℚ)
    (dir : CameraMoveKeys) (pos : Vector3) : Vector3 :=
  { x := pos.x + (sinq angleX * boolToRat dir.back - sinq angleX * boolToRat dir.front
            - cosq angleX * boolToRat dir.left + cosq angleX * boolToRat dir.right)
            / PLAYER_MOVEMENT_SENSITIVITY
    y := pos.y + (sinq angleY * boolToRat dir.front - sinq angleY * boolToRat dir.back
            + 1 * boolToRat dir.up - 1 * boolToRat dir.down)
            / PLAYER_MOVEMENT_SENSITIVITY
    z := pos.z + (cosq angleX * boolToRat dir.back - cosq angleX * boolToRat dir.front
            + sinq angleX * boolToRat dir.left - sinq angleX * boolToRat dir.right)
            / PLAYER_MOVEMENT_SENSITIVITY }

/-- The net effect of `UpdateCamera` on the camera position and the swing
counter: after the three increments, the swing counter advances when any key
is held (line 1236) and the y component is then overwritten with the
eye-height bob formula (line 1240), discarding the y increment. -/
def UpdateCameraPosition (sinq cosq : ℚ → ℚ) (angleX angleY : ℚ)
    (dir : CameraMoveKeys) (pos : Vector3) (swingCounter : ℤ) : Vector3 × ℤ :=
  let tentative := updateCameraTentative sinq cosq angleX angleY dir pos
  let swingNext := if isMovingKeys dir then swingCounter + 1 else swingCounter
  (⟨tentative.x,
    playerEyesPosition - sinq ((swingNext : ℚ) / STEP_TRIGONOMETRIC_DIVIDER) / STEP_DIVIDER,
    tentative.z⟩,
   swingNext)

/-! ### Unit-rectangle characterization of the collision test -/

theorem tdiv_one_two : Int.tdiv (1 : ℤ) 2 = 0 := rfl

/-- On a unit-square `Rectangle` at integer position `(a, b)` the test
compares distances against the center the code computes, which is `(a, b)`
itself because `rec.width/2` is the integer division `1/2 = 0`. -/
theorem check_unit_eq (cx cy r : ℚ) (a b : ℤ) :
    CheckCollisionCircleRec ⟨cx, cy⟩ r ⟨a, b, 1, 1⟩ =
      if |cx - (a : ℚ)| > 1/2 + r then false
      else if |cy - (b : ℚ)| > 1/2 + r then false
      else if |cx - (a : ℚ)| ≤ 1/2 then true
      else if |cy - (b : ℚ)| ≤ 1/2 then true
      else decide ((|cx - (a : ℚ)| - 1/2) * (|cx - (a : ℚ)| - 1/2) +
                   (|cy - (b : ℚ)| - 1/2) * (|cy - (b : ℚ)| - 1/2) ≤ r * r) := by
  simp only [CheckCollisionCircleRec, tdiv_one_two, add_zero, Int.cast_one]


/-- Claim C1, counterexample to the claim as stated: take the unit cell
rectangle at the origin, whose geometric center is `(1/2, 1/2)`, radius
`1/10` and `ε = 1/10`.  The circle centered at `(-1/5, 1/2)` lies at
distance `1/2 + 1/10 + 1/10` (half-width + radius + ε) from that center on
the x-axis, aligned on y, so the claim requires `false`, but the test
reports a collision: the code computes the rectangle center with integer
division, placing it at `(0, 0)` instead of `(1/2, 1/2)`. -/
theorem C1_counterexample :
    ((1:ℚ)/2 - (-(1:ℚ)/5)) = 1/2 + 1/10 + 1/10 ∧
    CheckCollisionCircleRec ⟨-(1:ℚ)/5, 1/2⟩ (1/10) ⟨0, 0, 1, 1⟩ = true := by
  refine ⟨by norm_num, ?_⟩
  rw [check_unit_eq]
  norm_num [abs_of_nonneg]

/-- Claim C1 (amended): on a unit-square cell rectangle the test measures
distances from the center it computes with integer division, `(rec.x, rec.y)`
for a unit square, half a cell off the geometric center.  A circle centered
at the geometric center collides for every positive radius; a circle whose
center is half-width + radius + ε away from the computed center `(a, b)` on
the x-axis (either side), aligned on y, does not collide; at distance exactly
half-width + radius (the boundary tie) it does collide. -/
theorem C1_amended (a b : ℤ) (r ε : ℚ) (hr : 0 < r) (hε : 0 < ε) :
    CheckCollisionCircleRec ⟨(a : ℚ) + 1/2, (b : ℚ) + 1/2⟩ r ⟨a, b, 1, 1⟩ = true ∧
    CheckCollisionCircleRec ⟨(a : ℚ) + (1/2 + r + ε), (b : ℚ)⟩ r ⟨a, b, 1, 1⟩ = false ∧
    CheckCollisionCircleRec ⟨(a : ℚ) - (1/2 + r + ε), (b : ℚ)⟩ r ⟨a, b, 1, 1⟩ = false ∧
    CheckCollisionCircleRec ⟨(a : ℚ) + (1/2 + r), (b : ℚ)⟩ r ⟨a, b, 1, 1⟩ = true ∧
    CheckCollisionCircleRec ⟨(a : ℚ) - (1/2 + r), (b : ℚ)⟩ r ⟨a, b, 1, 1⟩ = true := by
  have hb0 : |(b : ℚ) - b| = 0 := by simp
  have hah : |(a : ℚ) + 1/2 - a| = 1/2 := by
    rw [add_sub_cancel_left]; norm_num
  have hbh : |(b : ℚ) + 1/2 - b| = 1/2 := by
    rw [add_sub_cancel_left]; norm_num
  have haf : |(a : ℚ) + (1/2 + r + ε) - a| = 1/2 + r + ε := by
    rw [add_sub_cancel_left]; exact abs_of_pos (by linarith)
  have hag : |(a : ℚ) - (1/2 + r + ε) - a| = 1/2 + r + ε := by
    rw [sub_sub_cancel_left, abs_neg]; exact abs_of_pos (by linarith)
  have hat : |(a : ℚ) + (1/2 + r) - a| = 1/2 + r := by
    rw [add_sub_cancel_left]; exact abs_of_pos (by linarith)
  have hau : |(a : ℚ) - (1/2 + r) - a| = 1/2 + r := by
    rw [sub_sub_cancel_left, abs_neg]; exact abs_of_pos (by linarith)
  refine ⟨?_, ?_, ?_, ?_, ?_⟩
  · rw [check_unit_eq, hah, hbh,
      if_neg (by linarith), if_neg (by linarith), if_pos (by norm_num)]
  · rw [check_unit_eq, haf, if_pos (by linarith)]
  · rw [check_unit_eq, hag, if_pos (by linarith)]
  · rw [check_unit_eq, hat, hb0,
      if_neg (by linarith), if_neg (by linarith), if_neg (by linarith),
      if_pos (by norm_num)]
  · rw [check_unit_eq, hau, hb0,
      if_neg (by linarith), if_neg (by linarith), if_neg (by linarith),
      if_pos (by norm_num)]

/-- Witness for `C1_amended` at the unit cell at the origin with radius
`1/10` and `ε = 1/100`. -/
theorem C1_witness :
    (0 < (1:ℚ)/10 ∧ 0 < (1:ℚ)/100) ∧
    (CheckCollisionCircleRec ⟨((0:ℤ) : ℚ) + 1/2, ((0:ℤ) : ℚ) + 1/2⟩ (1/10) ⟨0, 0, 1, 1⟩ = true ∧
     CheckCollisionCircleRec ⟨((0:ℤ) : ℚ) + (1/2 + 1/10 + 1/100), ((0:ℤ) : ℚ)⟩ (1/10) ⟨0, 0, 1, 1⟩ = false ∧
     CheckCollisionCircleRec ⟨((0:ℤ) : ℚ) - (1/2 + 1/10 + 1/100), ((0:ℤ) : ℚ)⟩ (1/10) ⟨0, 0, 1, 1⟩ = false ∧
     CheckCollisionCircleRec ⟨((0:ℤ) : ℚ) + (1/2 + 1/10), ((0:ℤ) : ℚ)⟩ (1/10) ⟨0, 0, 1, 1⟩ = true ∧
     CheckCollisionCircleRec ⟨((0:ℤ) : ℚ) - (1/2 + 1/10), ((0:ℤ) : ℚ)⟩ (1/10) ⟨0, 0, 1, 1⟩ = true) :=
  ⟨⟨by norm_num, by norm_num⟩,
   C1_amended 0 0 (1/10) (1/100) (by norm_num) (by norm_num)⟩

/-! ### Face membership lemmas -/

theorem mem_if_singleton {α : Type} (a b : α) (c : Bool) :
    a ∈ (if c then [b] else []) ↔ (c = true ∧ a = b) := by
  cases c <;> simp

theorem white_ne_black {c : Color} (h : colorIsWhite c = true) :
    colorIsBlack c = false := by
  simp only [colorIsWhite, Bool.and_eq_true, beq_iff_eq] at h
  simp [colorIsBlack, h.1.1]

theorem black_ne_white {c : Color} (h : colorIsBlack c = true) :
    colorIsWhite c = false := by
  simp only [colorIsBlack, Bool.and_eq_true, beq_iff_eq] at h
  simp [colorIsWhite, h.1.1]

theorem wallTop_mem_cellFaces (im : Image) (x z : ℕ) :
    FaceKind.wallTop ∈ cellFaces im x z ↔
      colorIsWhite (pixelAt im (z * im.width + x)) = true := by
  unfold cellFaces
  cases hw : colorIsWhite (pixelAt im (z * im.width + x)) <;>
    cases hb : colorIsBlack (pixelAt im (z * im.width + x)) <;>
      simp [mem_if_singleton]

theorem front_mem_cellFaces (im : Image) (x z : ℕ) :
    FaceKind.front ∈ cellFaces im x z ↔
      (colorIsWhite (pixelAt im (z * im.width + x)) = true ∧ frontCond im x z = true) := by
  unfold cellFaces
  cases hw : colorIsWhite (pixelAt im (z * im.width + x)) <;>
    cases hb : colorIsBlack (pixelAt im (z * im.width + x)) <;>
      simp [mem_if_singleton]

theorem back_mem_cellFaces (im : Image) (x z : ℕ) :
    FaceKind.back ∈ cellFaces im x z ↔
      (colorIsWhite (pixelAt im (z * im.width + x)) = true ∧ backCond im x z = true) := by
  unfold cellFaces
  cases hw : colorIsWhite (pixelAt im (z * im.width + x)) <;>
    cases hb : colorIsBlack (pixelAt im (z * im.width + x)) <;>
      simp [mem_if_singleton]

theorem right_mem_cellFaces (im : Image) (x z : ℕ) :
    FaceKind.right ∈ cellFaces im x z ↔
      (colorIsWhite (pixelAt im (z * im.width + x)) = true ∧ rightCond im x z = true) := by
  unfold cellFaces
  cases hw : colorIsWhite (pixelAt im (z * im.width + x)) <;>
    cases hb : colorIsBlack (pixelAt im (z * im.width + x)) <;>
      simp [mem_if_singleton]

theorem left_mem_cellFaces (im : Image) (x z : ℕ) :
    FaceKind.left ∈ cellFaces im x z ↔
      (colorIsWhite (pixelAt im (z * im.width + x)) = true ∧ leftCond im x z = true) := by
  unfold cellFaces
  cases hw : colorIsWhite (pixelAt im (z * im.width + x)) <;>
    cases hb : colorIsBlack (pixelAt im (z * im.width + x)) <;>
      simp [mem_if_singleton]

/-- Claim C4: two grid-adjacent WALL cells never emit the side face on their
shared boundary (in either axis direction), and a WALL cell emits a side
face in a direction only when the neighbor in that direction is out of
bounds or is a pure-black OPEN cell. -/
theorem C4_culling (im : Image) (x z : ℕ) :
    (colorIsWhite (pixelAt im (z * im.width + x)) = true →
     colorIsWhite (pixelAt im (z * im.width + (x + 1))) = true →
     x + 1 < im.width →
     FaceKind.right ∉ cellFaces im x z ∧ FaceKind.left ∉ cellFaces im (x + 1) z) ∧
    (colorIsWhite (pixelAt im (z * im.width + x)) = true →
     colorIsWhite (pixelAt im ((z + 1) * im.width + x)) = true →
     z + 1 < im.height →
     FaceKind.front ∉ cellFaces im x z ∧ FaceKind.back ∉ cellFaces im x (z + 1)) ∧
    (colorIsWhite (pixelAt im (z * im.width + x)) = true →
      (FaceKind.front ∈ cellFaces im x z →
        z + 1 = im.height ∨
          (z + 1 < im.height ∧ colorIsBlack (pixelAt im ((z + 1) * im.width + x)) = true)) ∧
      (FaceKind.back ∈ cellFaces im x z →
        z = 0 ∨ (0 < z ∧ colorIsBlack (pixelAt im ((z - 1) * im.width + x)) = true)) ∧
      (FaceKind.right ∈ cellFaces im x z →
        x + 1 = im.width ∨
          (x + 1 < im.width ∧ colorIsBlack (pixelAt im (z * im.width + (x + 1))) = true)) ∧
      (FaceKind.left ∈ cellFaces im x z →
        x = 0 ∨ (0 < x ∧ colorIsBlack (pixelAt im (z * im.width + (x - 1))) = true))) := by
  refine ⟨?_, ?_, ?_⟩
  · intro h1 h2 hx
    constructor
    · rw [right_mem_cellFaces]
      rintro ⟨-, hc⟩
      simp [rightCond, white_ne_black h2] at hc
      omega
    · rw [left_mem_cellFaces]
      rintro ⟨-, hc⟩
      simp [leftCond, Nat.add_sub_cancel, white_ne_black h1] at hc
  · intro h1 h2 hz
    constructor
    · rw [front_mem_cellFaces]
      rintro ⟨-, hc⟩
      simp [frontCond, white_ne_black h2] at hc
      omega
    · rw [back_mem_cellFaces]
      rintro ⟨-, hc⟩
      simp [backCond, Nat.add_sub_cancel, white_ne_black h1] at hc
  · intro hw
    refine ⟨?_, ?_, ?_, ?_⟩
    · rw [front_mem_cellFaces]
      rintro ⟨-, hc⟩
      simp only [frontCond, Bool.or_eq_true, Bool.and_eq_true, decide_eq_true_eq] at hc
      tauto
    · rw [back_mem_cellFaces]
      rintro ⟨-, hc⟩
      simp only [backCond, Bool.or_eq_true, Bool.and_eq_true, decide_eq_true_eq] at hc
      tauto
    · rw [right_mem_cellFaces]
      rintro ⟨-, hc⟩
      simp only [rightCond, Bool.or_eq_true, Bool.and_eq_true, decide_eq_true_eq] at hc
      tauto
    · rw [left_mem_cellFaces]
      rintro ⟨-, hc⟩
      simp only [leftCond, Bool.or_eq_true, Bool.and_eq_true, decide_eq_true_eq] at hc
      tauto

/-- A pure-white pixel. -/
def whitePixel : Color := ⟨255, 255, 255, 255⟩

/-- A pure-black pixel. -/
def blackPixel : Color := ⟨0, 0, 0, 255⟩

/-- A 2x2 all-WALL grid. -/
def gridAllWall : Image := ⟨2, 2, [whitePixel, whitePixel, whitePixel, whitePixel]⟩

/-- Witness for `C4_culling` on the 2x2 all-WALL grid: the shared faces
between cells (0,0)/(1,0) and (0,0)/(0,1) are emitted by neither cell, and
the face cell (0,1) emits toward the lower map edge is justified by the
out-of-bounds neighbor. -/
theorem C4_culling_witness :
    (FaceKind.right ∉ cellFaces gridAllWall 0 0 ∧ FaceKind.left ∉ cellFaces gridAllWall 1 0) ∧
    (FaceKind.front ∉ cellFaces gridAllWall 0 0 ∧ FaceKind.back ∉ cellFaces gridAllWall 0 1) ∧
    (1 + 1 = gridAllWall.height ∨
      (1 + 1 < gridAllWall.height ∧
        colorIsBlack (pixelAt gridAllWall ((1 + 1) * gridAllWall.width + 0)) = true)) :=
  ⟨(C4_culling gridAllWall 0 0).1 (by decide) (by decide) (by decide),
   ⟨((C4_culling gridAllWall 0 0).2.1 (by decide) (by decide) (by decide)).1,
    ((C4_culling gridAllWall 0 0).2.1 (by decide) (by decide) (by decide)).2⟩,
   ((C4_culling gridAllWall 0 1).2.2 (by decide)).1 (by decide)⟩

/-- Claim C5: a pure-black OPEN cell emits exactly the ceiling quad and the
floor quad, two triangles (six vertices) each, and never a side face; the
floor quad carries the upward normal and the ceiling quad the downward
normal. -/
theorem C5_open_cell (im : Image) (x z : ℕ) (s : ℚ)
    (h : colorIsBlack (pixelAt im (z * im.width + x)) = true) :
    cellFaces im x z = [FaceKind.openCeil, FaceKind.openFloor] ∧
    (faceVerts s x z FaceKind.openCeil).length = 6 ∧
    (faceVerts s x z FaceKind.openFloor).length = 6 ∧
    faceNormal FaceKind.openFloor = ⟨0, 1, 0⟩ ∧
    faceNormal FaceKind.openCeil = ⟨0, -1, 0⟩ := by
  refine ⟨?_, rfl, rfl, rfl, rfl⟩
  simp [cellFaces, black_ne_white h, h]

/-- A 1x1 grid holding a single OPEN cell. -/
def gridOneOpen : Image := ⟨1, 1, [blackPixel]⟩

/-- Witness for `C5_open_cell` on a 1x1 OPEN grid. -/
theorem C5_open_cell_witness :
    cellFaces gridOneOpen 0 0 = [FaceKind.openCeil, FaceKind.openFloor] ∧
    (faceVerts 1 0 0 FaceKind.openCeil).length = 6 ∧
    (faceVerts 1 0 0 FaceKind.openFloor).length = 6 ∧
    faceNormal FaceKind.openFloor = ⟨0, 1, 0⟩ ∧
    faceNormal FaceKind.openCeil = ⟨0, -1, 0⟩ :=
  C5_open_cell gridOneOpen 0 0 1 (by decide)

/-- The 3x3 grid of claim C7: all WALL except the OPEN center. -/
def grid3 : Image :=
  ⟨3, 3,
   [whitePixel, whitePixel, whitePixel,
    whitePixel, blackPixel, whitePixel,
    whitePixel, whitePixel, whitePixel]⟩

/-- Claim C7: on the 3x3 all-WALL-except-center grid, the mesh contains,
cell by cell, exactly the four inward side walls around the center (the
front face of (1,0), the right face of (0,1), the left face of (2,1) and
the back face of (1,2)), top and bottom quads for all nine cells, and the
boundary-facing side faces of the edge cells. -/
theorem C7_scenario :
    cellFaces grid3 0 0 = [FaceKind.wallTop, FaceKind.wallBottom, FaceKind.back, FaceKind.left] ∧
    cellFaces grid3 1 0 = [FaceKind.wallTop, FaceKind.wallBottom, FaceKind.front, FaceKind.back] ∧
    cellFaces grid3 2 0 = [FaceKind.wallTop, FaceKind.wallBottom, FaceKind.back, FaceKind.right] ∧
    cellFaces grid3 0 1 = [FaceKind.wallTop, FaceKind.wallBottom, FaceKind.right, FaceKind.left] ∧
    cellFaces grid3 1 1 = [FaceKind.openCeil, FaceKind.openFloor] ∧
    cellFaces grid3 2 1 = [FaceKind.wallTop, FaceKind.wallBottom, FaceKind.right, FaceKind.left] ∧
    cellFaces grid3 0 2 = [FaceKind.wallTop, FaceKind.wallBottom, FaceKind.front, FaceKind.left] ∧
    cellFaces grid3 1 2 = [FaceKind.wallTop, FaceKind.wallBottom, FaceKind.front, FaceKind.back] ∧
    cellFaces grid3 2 2 = [FaceKind.wallTop, FaceKind.wallBottom, FaceKind.front, FaceKind.right] := by
  decide

/-- Claim C10, counterexample: a pixel with red 255 but green and blue 0 is
treated as a collider by the main loop but is neither WALL nor OPEN for the
mesh generator, so a 1x1 grid holding it emits no geometry at all: the cell
blocks the player while emitting no wall geometry. -/
theorem C10_counterexample :
    colliderCell ⟨255, 0, 0, 255⟩ = true ∧
    colorIsWhite ⟨255, 0, 0, 255⟩ = false ∧
    cellFaces ⟨1, 1, [⟨255, 0, 0, 255⟩]⟩ 0 0 = [] := by
  decide

/-- Claim C10 (amended): the resolver classifies a cell as a collider iff
its red channel is 255.  Every WALL (pure-white) cell is a collider, and on
cells that are pure white or pure black — the only colors the map palette is
meant to contain — collider status coincides with WALL status, which in turn
coincides with wall geometry being emitted (a cell emits the wall top quad
iff it is pure white).  For other colors with red 255 the collider test and
the mesh generator disagree. -/
theorem C10_refinement :
    (∀ c : Color,
      (colliderCell c = true ↔ c.r = 255) ∧
      (colorIsWhite c = true → colliderCell c = true) ∧
      ((colorIsWhite c = true ∨ colorIsBlack c = true) →
        (colliderCell c = true ↔ colorIsWhite c = true))) ∧
    (∀ (im : Image) (x z : ℕ),
      FaceKind.wallTop ∈ cellFaces im x z ↔
        colorIsWhite (pixelAt im (z * im.width + x)) = true) := by
  refine ⟨fun c => ⟨?_, ?_, ?_⟩, wallTop_mem_cellFaces⟩
  · simp [colliderCell]
  · intro h
    simp only [colorIsWhite, Bool.and_eq_true, beq_iff_eq] at h
    simp [colliderCell, h.1.1]
  · rintro (h | h)
    · have hr := h
      simp only [colorIsWhite, Bool.and_eq_true, beq_iff_eq] at hr
      simp [colliderCell, hr.1.1, h]
    · have hr := h
      simp only [colorIsBlack, Bool.and_eq_true, beq_iff_eq] at hr
      simp [colliderCell, hr.1.1, black_ne_white h]

/-- Witness for `C10_refinement` at a WALL pixel and at cell (0,0) of the
3x3 grid. -/
theorem C10_refinement_witness :
    colliderCell whitePixel = true ∧
    (colliderCell whitePixel = true ↔ colorIsWhite whitePixel = true) ∧
    (FaceKind.wallTop ∈ cellFaces grid3 0 0 ↔
      colorIsWhite (pixelAt grid3 (0 * grid3.width + 0)) = true) :=
  ⟨(C10_refinement.1 whitePixel).2.1 (by decide),
   (C10_refinement.1 whitePixel).2.2 (Or.inl (by decide)),
   C10_refinement.2 grid3 0 0⟩

/-! ### Vertex counting -/

theorem length_faceVerts (s : ℚ) (x z : ℕ) (k : FaceKind) :
    (faceVerts s x z k).length = 6 := by
  cases k <;> rfl

theorem length_flatMap_eq_sum {α β : Type} (l : List α) (g : α → List β) :
    (l.flatMap g).length = (l.map fun a => (g a).length).sum := by
  induction l with
  | nil => simp
  | cons a t ih => simp [ih]

theorem sum_map_six_mul {α : Type} (l : List α) (f : α → ℕ) :
    (l.map fun a => 6 * f a).sum = 6 * (l.map f).sum := by
  induction l with
  | nil => simp
  | cons a t ih => simp [ih, Nat.mul_add]

theorem sum_map_le_length_mul {α : Type} (l : List α) (f : α → ℕ) (n : ℕ)
    (h : ∀ a ∈ l, f a ≤ n) : (l.map f).sum ≤ l.length * n := by
  induction l with
  | nil => simp
  | cons a t ih =>
    simp only [List.map_cons, List.sum_cons, List.length_cons]
    have h1 := h a (by simp)
    have h2 := ih fun b hb => h b (by simp [hb])
    nlinarith

theorem length_cellVertices (im : Image) (s : ℚ) (x z : ℕ) :
    (cellVertices im s x z).length = 6 * (cellFaces im x z).length := by
  rw [cellVertices, length_flatMap_eq_sum]
  have : ((cellFaces im x z).map fun k => (faceVerts s x z k).length)
      = ((cellFaces im x z).map fun _ => 6) :=
    List.map_congr_left fun k _ => length_faceVerts s x z k
  rw [this]
  induction cellFaces im x z with
  | nil => simp
  | cons a t ih =>
    simp only [List.map_cons, List.sum_cons, List.length_cons]
    omega

theorem length_if_singleton_le {α : Type} (c : Bool) (k : α) :
    (if c then [k] else []).length ≤ 1 := by
  cases c <;> simp

theorem cellFaces_length_le (im : Image) (x z : ℕ) :
    (cellFaces im x z).length ≤ 6 := by
  unfold cellFaces
  split
  · simp only [List.length_append]
    have h1 := length_if_singleton_le (frontCond im x z) FaceKind.front
    have h2 := length_if_singleton_le (backCond im x z) FaceKind.back
    have h3 := length_if_singleton_le (rightCond im x z) FaceKind.right
    have h4 := length_if_singleton_le (leftCond im x z) FaceKind.left
    simp only [List.length_cons, List.length_nil]
    omega
  · split <;> simp

theorem vertexCount_eq_six_mul_totalFaces (im : Image) (s : ℚ) :
    GenMeshCubicmapVertexCount im s = 6 * totalFaces im := by
  unfold GenMeshCubicmapVertexCount GenMeshCubicmapVertices totalFaces
  rw [length_flatMap_eq_sum, length_flatMap_eq_sum]
  have e1 : ∀ z : ℕ,
      ((List.range im.width).flatMap fun x => cellVertices im s x z).length
        = 6 * ((List.range im.width).flatMap fun x => cellFaces im x z).length := by
    intro z
    rw [length_flatMap_eq_sum, length_flatMap_eq_sum]
    have : ((List.range im.width).map fun x => (cellVertices im s x z).length)
        = ((List.range im.width).map fun x => 6 * (cellFaces im x z).length) :=
      List.map_congr_left fun x _ => length_cellVertices im s x z
    rw [this, sum_map_six_mul]
  have : ((List.range im.height).map fun z =>
            ((List.range im.width).flatMap fun x => cellVertices im s x z).length)
      = ((List.range im.height).map fun z =>
            6 * ((List.range im.width).flatMap fun x => cellFaces im x z).length) :=
    List.map_congr_left fun z _ => e1 z
  rw [this, sum_map_six_mul]

/-- Claim C6: for every grid and positive cube size, the vertex count of the
generated mesh is a multiple of 3, equals 6 times the number of emitted
quads, and is bounded by `W*H*12` triangles times 3 vertices. -/
theorem C6_vertexCount (im : Image) (s : ℚ) (hs : 0 < s) :
    GenMeshCubicmapVertexCount im s % 3 = 0 ∧
    GenMeshCubicmapVertexCount im s = 6 * totalFaces im ∧
    GenMeshCubicmapVertexCount im s ≤ im.width * im.height * 12 * 3 := by
  have key := vertexCount_eq_six_mul_totalFaces im s
  refine ⟨by omega, key, ?_⟩
  have hcell : ∀ z : ℕ,
      ((List.range im.width).flatMap fun x => cellVertices im s x z).length
        ≤ im.width * 36 := by
    intro z
    rw [length_flatMap_eq_sum]
    have := sum_map_le_length_mul (List.range im.width)
      (fun x => (cellVertices im s x z).length) 36 ?_
    · simpa using this
    · intro x _
      simp only []
      rw [length_cellVertices]
      have := cellFaces_length_le im x z
      omega
  unfold GenMeshCubicmapVertexCount GenMeshCubicmapVertices
  rw [length_flatMap_eq_sum]
  calc ((List.range im.height).map fun z =>
          ((List.range im.width).flatMap fun x => cellVertices im s x z).length).sum
      ≤ (List.range im.height).length * (im.width * 36) :=
        sum_map_le_length_mul _ _ _ fun z _ => hcell z
    _ = im.width * im.height * 12 * 3 := by
        simp only [List.length_range]
        ring

/-- Witness for `C6_vertexCount` at the 3x3 scenario grid with cube size 1. -/
theorem C6_vertexCount_witness :
    0 < (1 : ℚ) ∧
    (GenMeshCubicmapVertexCount grid3 1 % 3 = 0 ∧
     GenMeshCubicmapVertexCount grid3 1 = 6 * totalFaces grid3 ∧
     GenMeshCubicmapVertexCount grid3 1 ≤ grid3.width * grid3.height * 12 * 3) :=
  ⟨by norm_num, C6_vertexCount grid3 1 (by norm_num)⟩

/-- Claim C9: a zero-size grid (as produced when the map image fails to
load) generates an empty mesh: no vertices at all, vertex count 0.  The
model is total, mirroring that the source loops simply perform no iteration
and no pixel is ever read. -/
theorem C9_empty (im : Image) (s : ℚ) (hw : im.width = 0) (hh : im.height = 0) :
    GenMeshCubicmapVertices im s = [] ∧ GenMeshCubicmapVertexCount im s = 0 := by
  unfold GenMeshCubicmapVertexCount GenMeshCubicmapVertices
  rw [hh]
  simp

/-- Witness for `C9_empty` at the literal empty image. -/
theorem C9_empty_witness :
    GenMeshCubicmapVertices ⟨0, 0, []⟩ 1 = [] ∧
    GenMeshCubicmapVertexCount ⟨0, 0, []⟩ 1 = 0 :=
  C9_empty ⟨0, 0, []⟩ 1 rfl rfl

/-! ### The collision scan on a non-square map -/

/-- A 1-wide, 2-tall grid: row 0 OPEN, row 1 WALL. -/
def gridTall : Image := ⟨1, 2, [blackPixel, whitePixel]⟩

theorem cellRectangle_zero (x y : ℕ) :
    cellRectangle ⟨0, 0, 0⟩ x y = ⟨(x : ℤ), (y : ℤ), 1, 1⟩ := by
  unfold cellRectangle cTrunc
  have hx : ((0 : ℚ) + 1/2 + (x : ℚ) * 1) = (x : ℚ) + 1/2 := by ring
  have hy : ((0 : ℚ) + 1/2 + (y : ℚ) * 1) = (y : ℚ) + 1/2 := by ring
  have hfl : ∀ n : ℕ, ⌊(n : ℚ) + 1/2⌋ = (n : ℤ) := by
    intro n
    rw [Int.floor_eq_iff]
    refine ⟨by push_cast; linarith, by push_cast; linarith⟩
  have hnn : ∀ n : ℕ, ¬((n : ℚ) + 1/2 < 0) := by
    intro n
    push_neg
    positivity
  rw [hx, hy, if_neg (hnn x), if_neg (hnn y), hfl x, hfl y]
  norm_num

/-- The wall cell (0, 1) of `gridTall` is a collider and the player circle
centered on that cell hits its rectangle. -/
theorem gridTall_wall_collides :
    colliderCell (pixelAt gridTall (1 * gridTall.width + 0)) = true ∧
    CheckCollisionCircleRec ⟨0, 1⟩ playerRadius (cellRectangle ⟨0, 0, 0⟩ 0 1) = true := by
  refine ⟨by decide, ?_⟩
  rw [cellRectangle_zero]
  show CheckCollisionCircleRec ⟨0, 1⟩ playerRadius ⟨(0 : ℤ), (1 : ℤ), 1, 1⟩ = true
  rw [playerRadius, check_unit_eq]
  norm_num

/-- Claim C3, failing input: on the 1x2 grid `gridTall` the scan of the main
loop visits only `width * width = 1` cell, so the WALL cell `(0, 1)` in the
second row is never tested: the scan reports no collision although that wall
cell is a collider whose rectangle the player circle overlaps. -/
theorem C3_scan_misses_row :
    anyCollision gridTall ⟨0, 0, 0⟩ ⟨0, 1⟩ = false ∧
    colliderCell (pixelAt gridTall (1 * gridTall.width + 0)) = true ∧
    CheckCollisionCircleRec ⟨0, 1⟩ playerRadius (cellRectangle ⟨0, 0, 0⟩ 0 1) = true := by
  refine ⟨?_, gridTall_wall_collides.1, gridTall_wall_collides.2⟩
  show (List.range gridTall.width).any _ = false
  have h1 : List.range gridTall.width = [0] := rfl
  rw [h1]
  simp only [List.any_cons, List.any_nil, Bool.or_false]
  show collidesCell gridTall ⟨0, 0, 0⟩ ⟨0, 1⟩ 0 0 = false
  unfold collidesCell
  have : colliderCell (pixelAt gridTall (0 * gridTall.width + 0)) = false := by decide
  rw [this, Bool.false_and]

/-- Claim C2, failing input: starting from the collision-free position
`(0, 3/5, 0)` with the tentative position `(0, 3/5, 1)` placing the player
circle at the center of the WALL cell `(0, 1)` of `gridTall`, the resolver
returns the tentative position unchanged instead of rolling back to the
pre-move position, because the row loop stops at `width = 1` and never tests
row 1. -/
theorem C2_no_rollback :
    CheckCollisionCircleRec ⟨0, 1⟩ playerRadius (cellRectangle ⟨0, 0, 0⟩ 0 1) = true ∧
    resolveCollision gridTall ⟨0, 0, 0⟩ ⟨0, 3/5, 0⟩ ⟨0, 3/5, 1⟩ = ⟨0, 3/5, 1⟩ ∧
    (⟨0, 3/5, 1⟩ : Vector3) ≠ ⟨0, 3/5, 0⟩ := by
  refine ⟨gridTall_wall_collides.2, ?_, ?_⟩
  · simp only [resolveCollision]
    have h1 : List.range gridTall.width = [0] := rfl
    rw [h1]
    simp only [List.foldl_cons, List.foldl_nil]
    have hc : collidesCell gridTall ⟨0, 0, 0⟩ ⟨(0 : ℚ), 1⟩ 0 0 = false := by
      unfold collidesCell
      have : colliderCell (pixelAt gridTall (0 * gridTall.width + 0)) = false := by decide
      rw [this, Bool.false_and]
    rw [hc]
    simp
  · intro h
    have := congrArg Vector3.z h
    norm_num at this

/-! ### Camera movement -/

/-- Claim C8 (amended): the x and z components of the camera position are
translated by the sum of the contributions of the four horizontal movement
keys along the yaw-rotated basis vectors, each scaled by the constant
`1/20 = 1/PLAYER_MOVEMENT_SENSITIVITY` with no elapsed-time factor; the
swing counter advances exactly when some key is held; but the y component is
not translated: the y increment computed from the up/down keys and the
pitch-scaled front/back keys is discarded when line 1240 overwrites y with
the eye-height bob formula, which is independent of the initial position and
of the keys except through the swing counter.  `sinq`/`cosq` range over all
interpretations of `sinf`/`cosf`. -/
theorem C8_movement (sinq cosq : ℚ → ℚ) (angleX angleY : ℚ)
    (dir : CameraMoveKeys) (pos : Vector3) (sw : ℤ) :
    (UpdateCameraPosition sinq cosq angleX angleY dir pos sw).2
        = (if isMovingKeys dir then sw + 1 else sw) ∧
    (UpdateCameraPosition sinq cosq angleX angleY dir pos sw).1.x
        = pos.x + (sinq angleX * boolToRat dir.back - sinq angleX * boolToRat dir.front
            - cosq angleX * boolToRat dir.left + cosq angleX * boolToRat dir.right) / 20 ∧
    (UpdateCameraPosition sinq cosq angleX angleY dir pos sw).1.z
        = pos.z + (cosq angleX * boolToRat dir.back - cosq angleX * boolToRat dir.front
            + sinq angleX * boolToRat dir.left - sinq angleX * boolToRat dir.right) / 20 ∧
    (UpdateCameraPosition sinq cosq angleX angleY dir pos sw).1.y
        = playerEyesPosition
            - sinq (((if isMovingKeys dir then sw + 1 else sw : ℤ) : ℚ) / 5) / 30 ∧
    (updateCameraTentative sinq cosq angleX angleY dir pos).y
        = pos.y + (sinq angleY * boolToRat dir.front - sinq angleY * boolToRat dir.back
            + 1 * boolToRat dir.up - 1 * boolToRat dir.down) / 20 :=
  ⟨rfl, rfl, rfl, rfl, rfl⟩

/-- The key state with only the up key (`E`) held. -/
def onlyUpKey : CameraMoveKeys := ⟨false, false, false, false, true, false⟩

/-- Claim C8, counterexample to the up/down part of the claim: holding only
the up key from position `(0, 3/5, 0)` (with the sine interpreted as the
zero function, swing counter 0), the final y is `3/5`, not the
`3/5 + 1/20` the claim requires; and starting from a different initial y
`9/10` the final y is the same `3/5`, so the held up key does not translate
the position along the vertical axis at all. -/
theorem C8_counterexample :
    (UpdateCameraPosition (fun _ => 0) (fun _ => 0) 0 0 onlyUpKey ⟨0, 3/5, 0⟩ 0).1.y = 3/5 ∧
    (UpdateCameraPosition (fun _ => 0) (fun _ => 0) 0 0 onlyUpKey ⟨0, 9/10, 0⟩ 0).1.y = 3/5 ∧
    (3 : ℚ)/5 ≠ 3/5 + 1/20 := by
  refine ⟨?_, ?_, by norm_num⟩ <;>
    simp [UpdateCameraPosition, playerEyesPosition, STEP_DIVIDER]

end Maze
